import Mathlib

/-!
Verification of the capability-gated message action router
(`src/agents/tools/message-tool.ts`).

The development shallowly embeds the router: the configuration snapshot,
the capability gates, the action-catalog builder, the schema synthesizer,
and the `execute` dispatch function.  Collaborators that live outside the
router's own file (parameter readers, account listings, provider
selection, MS Teams credential resolution) are modelled from the spec, as
noted on each definition.  `execute` is embedded as a function into an
extraction monad that records, in order, every parameter-extractor
invocation and every provider-resolution call, so that ordering claims
("eligibility fails before extraction") become statements about the
recorded event list.
-/

/-- A loosely-typed JSON-ish parameter value, as found in the tool's
untyped parameter bag. -/
inductive JVal
  | vStr (s : String)
  | vNum (n : Int)
  | vBool (b : Bool)
  | vStrArr (xs : List String)
  deriving DecidableEq

/-- The untyped parameter bag of a dispatch request. -/
abbrev Params : Type := String → Option JVal

/-- Observable events of one `execute` call: a parameter-extractor read
(with the key and whether the read was required), or an invocation of the
provider-selection collaborator. -/
inductive Event
  | readParam (key : String) (required : Bool)
  | resolveProviderCall
  deriving DecidableEq

/-- The router's typed failure taxonomy (spec section 7). -/
inductive ExecError
  | missingRequiredParameter (key : String)
  | invalidParameterType (key : String)
  | unknownAction (name : String)
  | unsupportedActionForProvider (action provider : String)
  | providerResolutionFailure
  deriving DecidableEq

instance {ε α : Type} [DecidableEq ε] [DecidableEq α] : DecidableEq (Except ε α) := fun a b =>
  match a, b with
  | Except.ok x, Except.ok y =>
      if h : x = y then isTrue (by rw [h]) else isFalse (by intro hc; cases hc; exact h rfl)
  | Except.error x, Except.error y =>
      if h : x = y then isTrue (by rw [h]) else isFalse (by intro hc; cases hc; exact h rfl)
  | Except.ok _, Except.error _ => isFalse (by intro hc; cases hc)
  | Except.error _, Except.ok _ => isFalse (by intro hc; cases hc)

/-- Extraction monad: threads the ordered list of observable events and
may fail with a typed routing error. -/
def Extract (α : Type) : Type := List Event → Except ExecError α × List Event

def Extract.pure {α : Type} (a : α) : Extract α := fun log => (Except.ok a, log)

def Extract.bind {α β : Type} (x : Extract α) (f : α → Extract β) : Extract β := fun log =>
  match x log with
  | (Except.ok a, log2) => f a log2
  | (Except.error e, log2) => (Except.error e, log2)

instance : Monad Extract where
  pure := Extract.pure
  bind := Extract.bind

def Extract.throw {α : Type} (e : ExecError) : Extract α := fun log => (Except.error e, log)

def Extract.note (ev : Event) : Extract Unit := fun log => (Except.ok (), log ++ [ev])

theorem Extract.run_bind {α β : Type} (x : Extract α) (f : α → Extract β) (log : List Event) :
    (x >>= f) log =
      match x log with
      | (Except.ok a, log2) => f a log2
      | (Except.error e, log2) => (Except.error e, log2) := rfl

theorem Extract.run_pure {α : Type} (a : α) (log : List Event) :
    (Pure.pure a : Extract α) log = (Except.ok a, log) := rfl

theorem Extract.run_note (ev : Event) (log : List Event) :
    Extract.note ev log = (Except.ok (), log ++ [ev]) := rfl

theorem Extract.run_throw {α : Type} (e : ExecError) (log : List Event) :
    (Extract.throw e : Extract α) log = (Except.error e, log) := rfl

/-- Kernel-reducible reimplementation of `String.isEmpty`. -/
def strIsEmpty (s : String) : Bool := s.data.isEmpty

/-- Kernel-reducible reimplementation of `String.trim` (strip surrounding
whitespace). -/
def strTrim (s : String) : String :=
  String.mk (((s.data.dropWhile Char.isWhitespace).reverse.dropWhile Char.isWhitespace).reverse)

/-- Kernel-reducible reimplementation of `String.toLower`. -/
def strToLower (s : String) : String := String.mk (s.data.map Char.toLower)

/-- Modelled from the spec: `readStringParam` from `tools/common` is not
under `src/`.  Per spec section 4.1, a required read of a key: missing or
(unless `allowEmpty`) empty-after-trim fails with
`MissingRequiredParameter(key)`; a non-string value fails with
`InvalidParameterType(key)`; `trim` strips surrounding whitespace. -/
def readRequiredStringParam (params : Params) (key : String) (allowEmpty trim : Bool) :
    Extract String := do
  Extract.note (Event.readParam key true)
  match params key with
  | none => Extract.throw (ExecError.missingRequiredParameter key)
  | some (JVal.vStr s) =>
      let t := if trim then strTrim s else s
      if strIsEmpty t && !allowEmpty then Extract.throw (ExecError.missingRequiredParameter key)
      else Extract.pure t
  | some _ => Extract.throw (ExecError.invalidParameterType key)

/-- Modelled from the spec: the optional (`required=false`) mode of
`readStringParam` from `tools/common`, which is not under `src/`.  A
missing key, or (unless `allowEmpty`) a present-but-empty string, yields
`none`; a non-string value fails with `InvalidParameterType(key)`. -/
def readOptStringParam (params : Params) (key : String) (allowEmpty trim : Bool) :
    Extract (Option String) := do
  Extract.note (Event.readParam key false)
  match params key with
  | none => Extract.pure none
  | some (JVal.vStr s) =>
      let t := if trim then strTrim s else s
      if strIsEmpty t && !allowEmpty then Extract.pure none
      else Extract.pure (some t)
  | some _ => Extract.throw (ExecError.invalidParameterType key)

/-- Modelled from the spec: `readNumberParam` from `tools/common` is not
under `src/`.  All call sites in the router use it for optional numbers;
numbers are modelled as integers, so the `integer` constraint always
holds. -/
def readNumberParam (params : Params) (key : String) (integer : Bool) :
    Extract (Option Int) := do
  Extract.note (Event.readParam key false)
  match params key with
  | none => Extract.pure none
  | some (JVal.vNum n) => Extract.pure (some n)
  | some _ => Extract.throw (ExecError.invalidParameterType key)

/-- Modelled from the spec: `readStringArrayParam` from `tools/common` is
not under `src/`.  Missing plus `required` fails with
`MissingRequiredParameter(key)`; a non-array value fails with
`InvalidParameterType(key)`. -/
def readStringArrayParam (params : Params) (key : String) (required : Bool) :
    Extract (Option (List String)) := do
  Extract.note (Event.readParam key required)
  match params key with
  | none =>
      if required then Extract.throw (ExecError.missingRequiredParameter key)
      else Extract.pure none
  | some (JVal.vStrArr xs) => Extract.pure (some xs)
  | some _ => Extract.throw (ExecError.invalidParameterType key)

/-- JavaScript truthiness of an optional parameter value, used for
`Boolean(params.dryRun)`. -/
def asBool : Option JVal → Bool
  | some (JVal.vBool b) => b
  | some (JVal.vStr s) => !(strIsEmpty s)
  | some (JVal.vNum n) => n != 0
  | some (JVal.vStrArr _) => true
  | none => false

/-- Build a parameter bag from an association list (for concrete runs). -/
def paramsOfList (l : List (String × JVal)) : Params := fun k => l.lookup k

/-- A per-capability gate map: a key may be absent, or explicitly mapped
to a boolean (or explicitly mapped to nothing, matching a JS record entry
holding `undefined`). -/
abbrev GateMap : Type := List (String × Option Bool)

/-- A Discord account as seen by the router: enablement flag and token
source (`"none"` means no credential). -/
structure DiscordAccount where
  enabled : Bool
  tokenSource : String
  deriving DecidableEq

/-- A Slack account: enablement, bot-token source, and an optional
account-level action-gate map overriding the global one. -/
structure SlackAccount where
  enabled : Bool
  botTokenSource : String
  actions : Option GateMap
  deriving DecidableEq

/-- A Telegram account: enablement, token source, and an optional
capability list. -/
structure TelegramAccount where
  enabled : Bool
  tokenSource : String
  capabilities : Option (List String)
  deriving DecidableEq

structure DiscordConfig where
  accounts : List DiscordAccount
  actions : Option GateMap
  deriving DecidableEq

structure SlackConfig where
  accounts : List SlackAccount
  actions : Option GateMap
  deriving DecidableEq

structure TelegramConfig where
  accounts : List TelegramAccount
  actions : Option GateMap
  capabilities : Option (List String)
  deriving DecidableEq

structure WhatsAppConfig where
  actions : Option GateMap
  deriving DecidableEq

structure MSTeamsConfig where
  enabled : Option Bool
  credentials : Option String
  deriving DecidableEq

/-- The configuration snapshot consumed by the router. -/
structure ClawdbotConfig where
  discord : Option DiscordConfig
  slack : Option SlackConfig
  telegram : Option TelegramConfig
  whatsapp : Option WhatsAppConfig
  msteams : Option MSTeamsConfig
  deriving DecidableEq

/-- Modelled from the spec: `createActionGate` from `tools/common` is not
under `src/`.  Per spec section 3 (CapabilityGate), an explicit
`true`/`false` entry overrides the default and absence falls back to the
default value; call sites that pass no default use `true`. -/
def createActionGate (actions : Option GateMap) (key : String) (dflt : Bool) : Bool :=
  match actions with
  | none => dflt
  | some m =>
      match m.lookup key with
      | some (some b) => b
      | _ => dflt

/-- Modelled from the spec: `listEnabledDiscordAccounts` from
`discord/accounts` is not under `src/`.  Per spec section 4.2 it filters
the provider's accounts by their enablement flag. -/
def listEnabledDiscordAccounts (cfg : ClawdbotConfig) : List DiscordAccount :=
  match cfg.discord with
  | none => []
  | some d => d.accounts.filter (fun a => a.enabled)

/-- Modelled from the spec: `listEnabledSlackAccounts` from
`slack/accounts` is not under `src/`; filters accounts by enablement. -/
def listEnabledSlackAccounts (cfg : ClawdbotConfig) : List SlackAccount :=
  match cfg.slack with
  | none => []
  | some s => s.accounts.filter (fun a => a.enabled)

/-- Modelled from the spec: `listEnabledTelegramAccounts` from
`telegram/accounts` is not under `src/`; filters accounts by enablement. -/
def listEnabledTelegramAccounts (cfg : ClawdbotConfig) : List TelegramAccount :=
  match cfg.telegram with
  | none => []
  | some t => t.accounts.filter (fun a => a.enabled)

/-- Modelled from the spec: `resolveMSTeamsCredentials` from
`msteams/token` is not under `src/`.  Per spec section 6
(`credentialsResolved`), it yields the configured credential material
when present. -/
def resolveMSTeamsCredentials (m : MSTeamsConfig) : Option String :=
  m.credentials

/-- The enabled Discord accounts that also have a real token source
(source: `buildMessageActionList`, filter on `tokenSource !== "none"`). -/
def discordAccounts (cfg : ClawdbotConfig) : List DiscordAccount :=
  (listEnabledDiscordAccounts cfg).filter (fun a => a.tokenSource != "none")

def discordEnabled (cfg : ClawdbotConfig) : Bool :=
  !(discordAccounts cfg).isEmpty

/-- The gate map `cfg.discord?.actions`. -/
def discordActionsOf (cfg : ClawdbotConfig) : Option GateMap :=
  match cfg.discord with
  | none => none
  | some d => d.actions

/-- The gate over `cfg.discord?.actions`. -/
def discordGate (cfg : ClawdbotConfig) (key : String) (dflt : Bool) : Bool :=
  createActionGate (discordActionsOf cfg) key dflt

def slackAccounts (cfg : ClawdbotConfig) : List SlackAccount :=
  (listEnabledSlackAccounts cfg).filter (fun a => a.botTokenSource != "none")

def slackEnabled (cfg : ClawdbotConfig) : Bool :=
  !(slackAccounts cfg).isEmpty

/-- The gate map effective for one Slack account:
`account.actions ?? cfg.slack?.actions`. -/
def slackAccountGateMap (cfg : ClawdbotConfig) (account : SlackAccount) : Option GateMap :=
  match account.actions with
  | some a => some a
  | none =>
      match cfg.slack with
      | none => none
      | some s => s.actions

/-- Source: `buildMessageActionList.isSlackActionEnabled` — `true` when
some enabled Slack account's effective gate grants the key. -/
def isSlackActionEnabled (cfg : ClawdbotConfig) (key : String) (dflt : Bool) : Bool :=
  if !(slackEnabled cfg) then false
  else (slackAccounts cfg).any (fun account =>
    createActionGate (slackAccountGateMap cfg account) key dflt)

def telegramAccounts (cfg : ClawdbotConfig) : List TelegramAccount :=
  (listEnabledTelegramAccounts cfg).filter (fun a => a.tokenSource != "none")

def telegramEnabled (cfg : ClawdbotConfig) : Bool :=
  !(telegramAccounts cfg).isEmpty

def telegramGate (cfg : ClawdbotConfig) (key : String) (dflt : Bool) : Bool :=
  createActionGate (match cfg.telegram with
    | none => none
    | some t => t.actions) key dflt

def whatsappGate (cfg : ClawdbotConfig) (key : String) (dflt : Bool) : Bool :=
  createActionGate (match cfg.whatsapp with
    | none => none
    | some w => w.actions) key dflt

def canDiscordReactions (cfg : ClawdbotConfig) : Bool :=
  discordEnabled cfg && discordGate cfg "reactions" true

def canSlackReactions (cfg : ClawdbotConfig) : Bool :=
  isSlackActionEnabled cfg "reactions" true

def canTelegramReactions (cfg : ClawdbotConfig) : Bool :=
  telegramEnabled cfg && telegramGate cfg "reactions" true

def canWhatsAppReactions (cfg : ClawdbotConfig) : Bool :=
  match cfg.whatsapp with
  | none => false
  | some _ => whatsappGate cfg "reactions" true

def canAnyReactions (cfg : ClawdbotConfig) : Bool :=
  canDiscordReactions cfg || canSlackReactions cfg ||
    canTelegramReactions cfg || canWhatsAppReactions cfg

def canDiscordMessages (cfg : ClawdbotConfig) : Bool :=
  discordEnabled cfg && discordGate cfg "messages" true

def canSlackMessages (cfg : ClawdbotConfig) : Bool :=
  isSlackActionEnabled cfg "messages" true

def canDiscordPins (cfg : ClawdbotConfig) : Bool :=
  discordEnabled cfg && discordGate cfg "pins" true

def canSlackPins (cfg : ClawdbotConfig) : Bool :=
  isSlackActionEnabled cfg "pins" true

/-- Source: `msteamsEnabled` — the msteams section is present, not
explicitly disabled, and its credentials resolve. -/
def msteamsEnabled (cfg : ClawdbotConfig) : Bool :=
  (match cfg.msteams with
   | none => true
   | some m => m.enabled != some false) &&
  (match cfg.msteams with
   | none => false
   | some m => (resolveMSTeamsCredentials m).isSome)

def canDiscordPolls (cfg : ClawdbotConfig) : Bool :=
  discordEnabled cfg && discordGate cfg "polls" true

def canWhatsAppPolls (cfg : ClawdbotConfig) : Bool :=
  match cfg.whatsapp with
  | none => false
  | some _ => whatsappGate cfg "polls" true

def canDiscordRoles (cfg : ClawdbotConfig) : Bool :=
  discordEnabled cfg && discordGate cfg "roles" false

/-- Source: `buildMessageActionList` — the action catalog, in the source's
insertion order (every action name is inserted by exactly one branch, so
the JS `Set` in insertion order equals this conditional concatenation). -/
def buildMessageActionList (cfg : ClawdbotConfig) : List String :=
  ["send"]
  ++ (if canAnyReactions cfg then ["react"] else [])
  ++ (if canDiscordReactions cfg || canSlackReactions cfg then ["reactions"] else [])
  ++ (if canDiscordMessages cfg || canSlackMessages cfg then ["read", "edit", "delete"] else [])
  ++ (if canDiscordPins cfg || canSlackPins cfg then ["pin", "unpin", "list-pins"] else [])
  ++ (if canDiscordPolls cfg || canWhatsAppPolls cfg || msteamsEnabled cfg then ["poll"] else [])
  ++ (if discordEnabled cfg && discordGate cfg "permissions" true then ["permissions"] else [])
  ++ (if discordEnabled cfg && discordGate cfg "threads" true then
        ["thread-create", "thread-list", "thread-reply"] else [])
  ++ (if discordEnabled cfg && discordGate cfg "search" true then ["search"] else [])
  ++ (if discordEnabled cfg && discordGate cfg "stickers" true then ["sticker"] else [])
  ++ (if (discordEnabled cfg && discordGate cfg "memberInfo" true) ||
        isSlackActionEnabled cfg "memberInfo" true then ["member-info"] else [])
  ++ (if discordEnabled cfg && discordGate cfg "roleInfo" true then ["role-info"] else [])
  ++ (if (discordEnabled cfg && discordGate cfg "reactions" true) ||
        isSlackActionEnabled cfg "emojiList" true then ["emoji-list"] else [])
  ++ (if discordEnabled cfg && discordGate cfg "emojiUploads" true then ["emoji-upload"] else [])
  ++ (if discordEnabled cfg && discordGate cfg "stickerUploads" true then
        ["sticker-upload"] else [])
  ++ (if canDiscordRoles cfg then ["role-add", "role-remove"] else [])
  ++ (if discordEnabled cfg && discordGate cfg "channelInfo" true then
        ["channel-info", "channel-list"] else [])
  ++ (if discordEnabled cfg && discordGate cfg "voiceStatus" true then ["voice-status"] else [])
  ++ (if discordEnabled cfg && discordGate cfg "events" true then
        ["event-list", "event-create"] else [])
  ++ (if discordEnabled cfg && discordGate cfg "moderation" false then
        ["timeout", "kick", "ban"] else [])

/-- Source: `AllMessageActions` — every action name understood by the
static tool schema. -/
def AllMessageActions : List String :=
  ["send", "poll", "react", "reactions", "read", "edit", "delete", "pin", "unpin",
   "list-pins", "permissions", "thread-create", "thread-list", "thread-reply", "search",
   "sticker", "member-info", "role-info", "emoji-list", "emoji-upload", "sticker-upload",
   "role-add", "role-remove", "channel-info", "channel-list", "voice-status", "event-list",
   "event-create", "timeout", "kick", "ban"]

/-- Source: keys of `MessageToolCommonSchema`, in declaration order. -/
def MessageToolCommonSchemaKeys : List String :=
  ["provider", "media", "buttons", "messageId", "replyTo", "threadId", "accountId",
   "dryRun", "bestEffort", "gifPlayback", "emoji", "remove", "limit", "before", "after",
   "around", "pollQuestion", "pollOption", "pollDurationHours", "pollMulti", "channelId",
   "channelIds", "guildId", "userId", "authorId", "authorIds", "roleId", "roleIds",
   "emojiName", "stickerId", "stickerName", "stickerDesc", "stickerTags", "threadName",
   "autoArchiveMin", "query", "eventName", "eventType", "startTime", "endTime", "desc",
   "location", "durationMin", "until", "reason", "deleteDays", "includeArchived",
   "participant", "fromMe", "gatewayUrl", "gatewayToken", "timeoutMs"]

/-- One alternative of the advertised parameter contract: the action
names it admits, its required keys, and its optional property keys. -/
structure SchemaVariant where
  actionLiterals : List String
  requiredKeys : List String
  props : List String
  deriving DecidableEq

/-- Source: `buildMessageToolSchemaFromActions` — a `"send"` shape
(target and body required) plus a shared shape for all non-send actions;
the `buttons` property is dropped from both unless requested. -/
def buildMessageToolSchemaFromActions (actions : List String) (includeButtons : Bool) :
    List SchemaVariant :=
  let props :=
    if includeButtons then MessageToolCommonSchemaKeys
    else MessageToolCommonSchemaKeys.filter (fun k => k != "buttons")
  (if actions.contains "send" then
    [{ actionLiterals := ["send"], requiredKeys := ["action", "to", "message"],
       props := props }]
   else [])
  ++ (let nonSend := actions.filter (fun a => a != "send")
      if !nonSend.isEmpty then
        [{ actionLiterals := nonSend, requiredKeys := ["action"], props := props }]
      else [])

/-- Source: `hasTelegramInlineButtons` — collects the global telegram
capability list and every configured telegram account's capability list
(trimmed, lowercased, empty entries dropped) and checks for
`"inlinebuttons"`. -/
def normalizedCaps (entries : List String) : List String :=
  (entries.map (fun e => strToLower (strTrim e))).filter (fun e => !(strIsEmpty e))

def hasTelegramInlineButtons (cfg : ClawdbotConfig) : Bool :=
  let globalCaps :=
    match cfg.telegram with
    | none => []
    | some t =>
        match t.capabilities with
        | none => []
        | some c => c
  let accountCaps :=
    match cfg.telegram with
    | none => []
    | some t =>
        (t.accounts.map (fun a =>
          match a.capabilities with
          | none => []
          | some c => c)).flatten
  (normalizedCaps globalCaps ++ normalizedCaps accountCaps).contains "inlinebuttons"

/-- Source: `buildMessageToolSchema` — include the `buttons` property
exactly when an enabled telegram account with a token exists and the
inline-buttons capability is collected. -/
def telegramButtonsIncluded (cfg : ClawdbotConfig) : Bool :=
  telegramEnabled cfg && hasTelegramInlineButtons cfg

def buildMessageToolSchema (cfg : ClawdbotConfig) : List SchemaVariant :=
  buildMessageToolSchemaFromActions (buildMessageActionList cfg) (telegramButtonsIncluded cfg)

/-- Modelled from the spec: `normalizeAccountId` from
`routing/session-key` is not under `src/` and the spec does not describe
its transformation; it is treated as the identity normalization. -/
def normalizeAccountId (s : String) : String := s

/-- Source: `resolveAgentAccountId` — trim, map empty to absent,
normalize. -/
def resolveAgentAccountId (value : Option String) : Option String :=
  match value with
  | none => none
  | some v =>
      let t := strTrim v
      if strIsEmpty t then none else some (normalizeAccountId t)

/-- The caller-session options captured by `createMessageTool`. -/
structure MessageToolOptions where
  agentAccountId : Option String
  currentChannelId : Option String
  currentThreadTs : Option String
  replyToMode : Option String
  hasRepliedRefValue : Option Bool
  deriving DecidableEq

/-- The list of providers with at least one enabled, credentialed
account, in a fixed order (used by the modelled provider selection). -/
def enabledProviders (cfg : ClawdbotConfig) : List String :=
  (if discordEnabled cfg then ["discord"] else [])
  ++ (if slackEnabled cfg then ["slack"] else [])
  ++ (if telegramEnabled cfg then ["telegram"] else [])
  ++ (if cfg.whatsapp.isSome then ["whatsapp"] else [])
  ++ (if msteamsEnabled cfg then ["msteams"] else [])

/-- Modelled from the spec: `resolveMessageProviderSelection` from
`infra/outbound/provider-selection` is not under `src/`.  Per spec
section 4.5: an explicit override wins; otherwise the sole enabled
provider is used; otherwise resolution fails. -/
def resolveMessageProviderSelectionM (cfg : ClawdbotConfig) (explicit : Option String) :
    Extract String := do
  Extract.note Event.resolveProviderCall
  match explicit with
  | some p => Extract.pure p
  | none =>
      match enabledProviders cfg with
      | [p] => Extract.pure p
      | _ => Extract.throw ExecError.providerResolutionFailure

/-- Gateway routing options assembled at the top of `execute`. -/
structure GatewayOpts where
  url : Option String
  token : Option String
  timeoutMs : Option Int
  clientName : String
  mode : String
  deriving DecidableEq

/-- Argument shape of the provider-agnostic `sendMessage` collaborator
(`target` embeds the source key `to`, which is a reserved token here). -/
structure SendMessageArgs where
  target : String
  content : String
  mediaUrl : Option String
  provider : Option String
  accountId : Option String
  gifPlayback : Bool
  dryRun : Bool
  bestEffort : Option Bool
  gateway : GatewayOpts
  deriving DecidableEq

/-- Argument shape of the provider-agnostic `sendPoll` collaborator
(`target` embeds the source key `to`). -/
structure SendPollArgs where
  target : String
  question : String
  options : List String
  maxSelections : Int
  durationHours : Option Int
  provider : String
  dryRun : Bool
  gateway : GatewayOpts
  deriving DecidableEq

/-- The discriminated request objects handed to `handleDiscordAction`. -/
inductive DiscordReq
  | sendMessage (target content : String) (mediaUrl replyTo : Option String)
  | poll (target question : String) (answers : List String) (allowMultiselect : Option Bool)
      (durationHours : Option Int) (content : Option String)
  | react (channelId messageId : String) (emoji : Option String) (remove : Option Bool)
  | reactions (channelId messageId : String) (limit : Option Int)
  | readMessages (channelId : String) (limit : Option Int) (before after around : Option String)
  | editMessage (channelId messageId content : String)
  | deleteMessage (channelId messageId : String)
  | pinMessage (channelId : String) (messageId : Option String)
  | unpinMessage (channelId : String) (messageId : Option String)
  | listPins (channelId : String) (messageId : Option String)
  | permissions (channelId : String)
  | threadCreate (channelId name : String) (messageId : Option String)
      (autoArchiveMinutes : Option Int)
  | threadList (guildId : String) (channelId : Option String) (includeArchived : Option Bool)
      (before : Option String) (limit : Option Int)
  | threadReply (channelId content : String) (mediaUrl replyTo : Option String)
  | searchMessages (guildId content : String) (channelId : Option String)
      (channelIds : Option (List String)) (authorId : Option String)
      (authorIds : Option (List String)) (limit : Option Int)
  | sticker (target : String) (stickerIds : List String) (content : Option String)
  | memberInfo (guildId userId : String)
  | roleInfo (guildId : String)
  | emojiList (guildId : String)
  | emojiUpload (guildId name mediaUrl : String) (roleIds : Option (List String))
  | stickerUpload (guildId name description tags mediaUrl : String)
  | roleAdd (guildId userId roleId : String)
  | roleRemove (guildId userId roleId : String)
  | channelInfo (channelId : String)
  | channelList (guildId : String)
  | voiceStatus (guildId userId : String)
  | eventList (guildId : String)
  | eventCreate (guildId name startTime : String)
      (endTime description channelId location entityType : Option String)
  | modAction (kind guildId userId : String) (durationMinutes : Option Int)
      (untilTime reason : Option String) (deleteMessageDays : Option Int)
  deriving DecidableEq

/-- The discriminated request objects handed to `handleSlackAction`. -/
inductive SlackReq
  | sendMessage (target content : String) (mediaUrl accountId threadTs : Option String)
  | react (channelId messageId : String) (emoji : Option String) (remove : Option Bool)
      (accountId : Option String)
  | reactions (channelId messageId : String) (limit : Option Int) (accountId : Option String)
  | readMessages (channelId : String) (limit : Option Int) (before after : Option String)
      (accountId : Option String)
  | editMessage (channelId messageId content : String) (accountId : Option String)
  | deleteMessage (channelId messageId : String) (accountId : Option String)
  | pinMessage (channelId : String) (messageId : Option String) (accountId : Option String)
  | unpinMessage (channelId : String) (messageId : Option String) (accountId : Option String)
  | listPins (channelId : String) (messageId : Option String) (accountId : Option String)
  | memberInfo (userId : String) (accountId : Option String)
  | emojiList (accountId : Option String)
  deriving DecidableEq

/-- The discriminated request objects handed to `handleTelegramAction`. -/
inductive TelegramReq
  | sendMessage (target content : String)
      (mediaUrl replyToMessageId messageThreadId accountId : Option String)
      (buttons : Option JVal)
  | react (chatId messageId : String) (emoji : Option String) (remove : Option Bool)
      (accountId : Option String)
  deriving DecidableEq

/-- The discriminated request objects handed to `handleWhatsAppAction`. -/
inductive WhatsAppReq
  | react (chatJid messageId : String) (emoji : Option String) (remove : Option Bool)
      (participant : Option String) (accountId : Option String) (fromMe : Option Bool)
  deriving DecidableEq

/-- Session context forwarded to `handleSlackAction` on the send path. -/
structure SlackSessionCtx where
  currentChannelId : Option String
  currentThreadTs : Option String
  replyToMode : Option String
  hasRepliedRefValue : Option Bool
  deriving DecidableEq

/-- The collaborator call an `execute` run dispatches to. -/
inductive Dispatch
  | sendMessageCall (args : SendMessageArgs)
  | sendPollCall (args : SendPollArgs)
  | discordCall (req : DiscordReq)
  | slackCall (req : SlackReq) (ctx : Option SlackSessionCtx)
  | telegramCall (req : TelegramReq)
  | whatsappCall (req : WhatsAppReq)
  deriving DecidableEq

/-- A dispatch on the provider-agnostic gateway path
(`sendMessage`/`sendPoll`), as opposed to a provider-specific handler. -/
def Dispatch.isGeneric : Dispatch → Bool
  | Dispatch.sendMessageCall _ => true
  | Dispatch.sendPollCall _ => true
  | _ => false

/-- JS `x || undefined` on an optional string: an empty string collapses
to absence. -/
def orUndefined : Option String → Option String
  | some t => if strIsEmpty t then none else some t
  | none => none

/-- Source: the local `resolveChannelId`/`resolveChatId` helpers — an
optional read of the labelled key, falling back to a required read of
`to`. -/
def resolveTargetParam (params : Params) (label : String) : Extract String := do
  let v ← readOptStringParam params label false true
  match v with
  | some s => Extract.pure s
  | none => readRequiredStringParam params "to" false true

/-- JS `typeof x === "boolean" ? x : undefined` over a parameter value. -/
def asOptBool : Option JVal → Option Bool
  | some (JVal.vBool b) => some b
  | _ => none

/-- Source: the action dispatch cascade of `createMessageTool.execute`,
from the `action === "send"` test down to the final unknown-action
failure.  Each branch produces the collaborator call it would make
(`Dispatch`) or a typed failure, recording extractor reads in order. -/
def executeBranch (opts : MessageToolOptions) (cfg : ClawdbotConfig) (params : Params)
    (action provider : String) (accountId : Option String) (gateway : GatewayOpts)
    (dryRun : Bool) : Extract Dispatch :=
  if action = "send" then do
    let target ← readRequiredStringParam params "to" false true
    let message ← readRequiredStringParam params "message" true true
    let mediaUrl ← readOptStringParam params "media" false false
    let replyTo ← readOptStringParam params "replyTo" false true
    let threadId ← readOptStringParam params "threadId" false true
    let buttons := params "buttons"
    let gifPlayback :=
      match params "gifPlayback" with
      | some (JVal.vBool b) => b
      | _ => false
    let bestEffort := asOptBool (params "bestEffort")
    if dryRun then
      Extract.pure (Dispatch.sendMessageCall
        { target := target, content := message, mediaUrl := orUndefined mediaUrl,
          provider := if strIsEmpty provider then none else some provider,
          accountId := accountId, gifPlayback := gifPlayback, dryRun := dryRun,
          bestEffort := bestEffort, gateway := gateway })
    else if provider = "discord" then
      Extract.pure (Dispatch.discordCall (DiscordReq.sendMessage target message mediaUrl replyTo))
    else if provider = "slack" then
      Extract.pure (Dispatch.slackCall
        (SlackReq.sendMessage target message mediaUrl accountId
          (match threadId with
           | some t => some t
           | none => replyTo))
        (some { currentChannelId := opts.currentChannelId,
                currentThreadTs := opts.currentThreadTs,
                replyToMode := opts.replyToMode,
                hasRepliedRefValue := opts.hasRepliedRefValue }))
    else if provider = "telegram" then
      Extract.pure (Dispatch.telegramCall
        (TelegramReq.sendMessage target message mediaUrl replyTo threadId accountId buttons))
    else
      Extract.pure (Dispatch.sendMessageCall
        { target := target, content := message, mediaUrl := orUndefined mediaUrl,
          provider := if strIsEmpty provider then none else some provider,
          accountId := accountId, gifPlayback := gifPlayback, dryRun := dryRun,
          bestEffort := bestEffort, gateway := gateway })
  else if action = "poll" then do
    let target ← readRequiredStringParam params "to" false true
    let question ← readRequiredStringParam params "pollQuestion" false true
    let optionsArr ← readStringArrayParam params "pollOption" true
    let answers := optionsArr.getD []
    let allowMultiselect := asOptBool (params "pollMulti")
    let durationHours ← readNumberParam params "pollDurationHours" true
    if dryRun then
      Extract.pure (Dispatch.sendPollCall
        { target := target, question := question, options := answers,
          maxSelections :=
            match allowMultiselect with
            | some true => max 2 (Int.ofNat answers.length)
            | _ => 1,
          durationHours := durationHours, provider := provider, dryRun := dryRun,
          gateway := gateway })
    else if provider = "discord" then do
      let content ← readOptStringParam params "message" false true
      Extract.pure (Dispatch.discordCall
        (DiscordReq.poll target question answers allowMultiselect durationHours content))
    else
      Extract.pure (Dispatch.sendPollCall
        { target := target, question := question, options := answers,
          maxSelections :=
            match allowMultiselect with
            | some true => max 2 (Int.ofNat answers.length)
            | _ => 1,
          durationHours := durationHours, provider := provider, dryRun := dryRun,
          gateway := gateway })
  else if action = "react" then do
    let messageId ← readRequiredStringParam params "messageId" false true
    let emoji ← readOptStringParam params "emoji" true true
    let remove := asOptBool (params "remove")
    if provider = "discord" then do
      let channelId ← resolveTargetParam params "channelId"
      Extract.pure (Dispatch.discordCall (DiscordReq.react channelId messageId emoji remove))
    else if provider = "slack" then do
      let channelId ← resolveTargetParam params "channelId"
      Extract.pure (Dispatch.slackCall (SlackReq.react channelId messageId emoji remove accountId)
        none)
    else if provider = "telegram" then do
      let chatId ← resolveTargetParam params "chatId"
      Extract.pure (Dispatch.telegramCall
        (TelegramReq.react chatId messageId emoji remove accountId))
    else if provider = "whatsapp" then do
      let chatJid ← resolveTargetParam params "chatJid"
      let participant ← readOptStringParam params "participant" false true
      Extract.pure (Dispatch.whatsappCall
        (WhatsAppReq.react chatJid messageId emoji remove participant accountId
          (asOptBool (params "fromMe"))))
    else Extract.throw (ExecError.unsupportedActionForProvider "react" provider)
  else if action = "reactions" then do
    let messageId ← readRequiredStringParam params "messageId" false true
    let limit ← readNumberParam params "limit" true
    if provider = "discord" then do
      let channelId ← resolveTargetParam params "channelId"
      Extract.pure (Dispatch.discordCall (DiscordReq.reactions channelId messageId limit))
    else if provider = "slack" then do
      let channelId ← resolveTargetParam params "channelId"
      Extract.pure (Dispatch.slackCall (SlackReq.reactions channelId messageId limit accountId)
        none)
    else Extract.throw (ExecError.unsupportedActionForProvider "reactions" provider)
  else if action = "read" then do
    let limit ← readNumberParam params "limit" true
    let before ← readOptStringParam params "before" false true
    let after ← readOptStringParam params "after" false true
    let around ← readOptStringParam params "around" false true
    if provider = "discord" then do
      let channelId ← resolveTargetParam params "channelId"
      Extract.pure (Dispatch.discordCall
        (DiscordReq.readMessages channelId limit before after around))
    else if provider = "slack" then do
      let channelId ← resolveTargetParam params "channelId"
      Extract.pure (Dispatch.slackCall
        (SlackReq.readMessages channelId limit before after accountId) none)
    else Extract.throw (ExecError.unsupportedActionForProvider "read" provider)
  else if action = "edit" then do
    let messageId ← readRequiredStringParam params "messageId" false true
    let message ← readRequiredStringParam params "message" false true
    if provider = "discord" then do
      let channelId ← resolveTargetParam params "channelId"
      Extract.pure (Dispatch.discordCall (DiscordReq.editMessage channelId messageId message))
    else if provider = "slack" then do
      let channelId ← resolveTargetParam params "channelId"
      Extract.pure (Dispatch.slackCall (SlackReq.editMessage channelId messageId message accountId)
        none)
    else Extract.throw (ExecError.unsupportedActionForProvider "edit" provider)
  else if action = "delete" then do
    let messageId ← readRequiredStringParam params "messageId" false true
    if provider = "discord" then do
      let channelId ← resolveTargetParam params "channelId"
      Extract.pure (Dispatch.discordCall (DiscordReq.deleteMessage channelId messageId))
    else if provider = "slack" then do
      let channelId ← resolveTargetParam params "channelId"
      Extract.pure (Dispatch.slackCall (SlackReq.deleteMessage channelId messageId accountId)
        none)
    else Extract.throw (ExecError.unsupportedActionForProvider "delete" provider)
  else if action = "pin" ∨ action = "unpin" ∨ action = "list-pins" then do
    let messageId ←
      if action = "list-pins" then Extract.pure (none : Option String)
      else do
        let m ← readRequiredStringParam params "messageId" false true
        Extract.pure (some m)
    let channelId ← resolveTargetParam params "channelId"
    if provider = "discord" then
      Extract.pure (Dispatch.discordCall
        (if action = "pin" then DiscordReq.pinMessage channelId messageId
         else if action = "unpin" then DiscordReq.unpinMessage channelId messageId
         else DiscordReq.listPins channelId messageId))
    else if provider = "slack" then
      Extract.pure (Dispatch.slackCall
        (if action = "pin" then SlackReq.pinMessage channelId messageId accountId
         else if action = "unpin" then SlackReq.unpinMessage channelId messageId accountId
         else SlackReq.listPins channelId messageId accountId) none)
    else Extract.throw (ExecError.unsupportedActionForProvider action provider)
  else if action = "permissions" then
    if provider = "discord" then do
      let channelId ← resolveTargetParam params "channelId"
      Extract.pure (Dispatch.discordCall (DiscordReq.permissions channelId))
    else Extract.throw (ExecError.unsupportedActionForProvider "permissions" provider)
  else if action = "thread-create" then
    if provider = "discord" then do
      let name ← readRequiredStringParam params "threadName" false true
      let messageId ← readOptStringParam params "messageId" false true
      let autoArchiveMinutes ← readNumberParam params "autoArchiveMin" true
      let channelId ← resolveTargetParam params "channelId"
      Extract.pure (Dispatch.discordCall
        (DiscordReq.threadCreate channelId name messageId autoArchiveMinutes))
    else Extract.throw (ExecError.unsupportedActionForProvider "thread-create" provider)
  else if action = "thread-list" then
    if provider = "discord" then do
      let guildId ← readRequiredStringParam params "guildId" false true
      let channelId ← readOptStringParam params "channelId" false true
      let includeArchived := asOptBool (params "includeArchived")
      let before ← readOptStringParam params "before" false true
      let limit ← readNumberParam params "limit" true
      Extract.pure (Dispatch.discordCall
        (DiscordReq.threadList guildId channelId includeArchived before limit))
    else Extract.throw (ExecError.unsupportedActionForProvider "thread-list" provider)
  else if action = "thread-reply" then
    if provider = "discord" then do
      let content ← readRequiredStringParam params "message" false true
      let mediaUrl ← readOptStringParam params "media" false false
      let replyTo ← readOptStringParam params "replyTo" false true
      let channelId ← resolveTargetParam params "channelId"
      Extract.pure (Dispatch.discordCall
        (DiscordReq.threadReply channelId content mediaUrl replyTo))
    else Extract.throw (ExecError.unsupportedActionForProvider "thread-reply" provider)
  else if action = "search" then
    if provider = "discord" then do
      let guildId ← readRequiredStringParam params "guildId" false true
      let query ← readRequiredStringParam params "query" false true
      let channelId ← readOptStringParam params "channelId" false true
      let channelIds ← readStringArrayParam params "channelIds" false
      let authorId ← readOptStringParam params "authorId" false true
      let authorIds ← readStringArrayParam params "authorIds" false
      let limit ← readNumberParam params "limit" true
      Extract.pure (Dispatch.discordCall
        (DiscordReq.searchMessages guildId query channelId channelIds authorId authorIds limit))
    else Extract.throw (ExecError.unsupportedActionForProvider "search" provider)
  else if action = "sticker" then
    if provider = "discord" then do
      let stickerIdsArr ← readStringArrayParam params "stickerId" true
      let content ← readOptStringParam params "message" false true
      let target ← readRequiredStringParam params "to" false true
      Extract.pure (Dispatch.discordCall
        (DiscordReq.sticker target (stickerIdsArr.getD []) content))
    else Extract.throw (ExecError.unsupportedActionForProvider "sticker" provider)
  else if action = "member-info" then do
    let userId ← readRequiredStringParam params "userId" false true
    if provider = "discord" then do
      let guildId ← readRequiredStringParam params "guildId" false true
      Extract.pure (Dispatch.discordCall (DiscordReq.memberInfo guildId userId))
    else if provider = "slack" then
      Extract.pure (Dispatch.slackCall (SlackReq.memberInfo userId accountId) none)
    else Extract.throw (ExecError.unsupportedActionForProvider "member-info" provider)
  else if action = "role-info" then
    if provider = "discord" then do
      let guildId ← readRequiredStringParam params "guildId" false true
      Extract.pure (Dispatch.discordCall (DiscordReq.roleInfo guildId))
    else Extract.throw (ExecError.unsupportedActionForProvider "role-info" provider)
  else if action = "emoji-list" then
    if provider = "discord" then do
      let guildId ← readRequiredStringParam params "guildId" false true
      Extract.pure (Dispatch.discordCall (DiscordReq.emojiList guildId))
    else if provider = "slack" then
      Extract.pure (Dispatch.slackCall (SlackReq.emojiList accountId) none)
    else Extract.throw (ExecError.unsupportedActionForProvider "emoji-list" provider)
  else if action = "emoji-upload" then
    if provider = "discord" then do
      let guildId ← readRequiredStringParam params "guildId" false true
      let name ← readRequiredStringParam params "emojiName" false true
      let mediaUrl ← readRequiredStringParam params "media" false false
      let roleIds ← readStringArrayParam params "roleIds" false
      Extract.pure (Dispatch.discordCall (DiscordReq.emojiUpload guildId name mediaUrl roleIds))
    else Extract.throw (ExecError.unsupportedActionForProvider "emoji-upload" provider)
  else if action = "sticker-upload" then
    if provider = "discord" then do
      let guildId ← readRequiredStringParam params "guildId" false true
      let name ← readRequiredStringParam params "stickerName" false true
      let description ← readRequiredStringParam params "stickerDesc" false true
      let tags ← readRequiredStringParam params "stickerTags" false true
      let mediaUrl ← readRequiredStringParam params "media" false false
      Extract.pure (Dispatch.discordCall
        (DiscordReq.stickerUpload guildId name description tags mediaUrl))
    else Extract.throw (ExecError.unsupportedActionForProvider "sticker-upload" provider)
  else if action = "role-add" ∨ action = "role-remove" then
    if provider = "discord" then do
      let guildId ← readRequiredStringParam params "guildId" false true
      let userId ← readRequiredStringParam params "userId" false true
      let roleId ← readRequiredStringParam params "roleId" false true
      Extract.pure (Dispatch.discordCall
        (if action = "role-add" then DiscordReq.roleAdd guildId userId roleId
         else DiscordReq.roleRemove guildId userId roleId))
    else Extract.throw (ExecError.unsupportedActionForProvider action provider)
  else if action = "channel-info" then
    if provider = "discord" then do
      let channelId ← readRequiredStringParam params "channelId" false true
      Extract.pure (Dispatch.discordCall (DiscordReq.channelInfo channelId))
    else Extract.throw (ExecError.unsupportedActionForProvider "channel-info" provider)
  else if action = "channel-list" then
    if provider = "discord" then do
      let guildId ← readRequiredStringParam params "guildId" false true
      Extract.pure (Dispatch.discordCall (DiscordReq.channelList guildId))
    else Extract.throw (ExecError.unsupportedActionForProvider "channel-list" provider)
  else if action = "voice-status" then
    if provider = "discord" then do
      let guildId ← readRequiredStringParam params "guildId" false true
      let userId ← readRequiredStringParam params "userId" false true
      Extract.pure (Dispatch.discordCall (DiscordReq.voiceStatus guildId userId))
    else Extract.throw (ExecError.unsupportedActionForProvider "voice-status" provider)
  else if action = "event-list" then
    if provider = "discord" then do
      let guildId ← readRequiredStringParam params "guildId" false true
      Extract.pure (Dispatch.discordCall (DiscordReq.eventList guildId))
    else Extract.throw (ExecError.unsupportedActionForProvider "event-list" provider)
  else if action = "event-create" then
    if provider = "discord" then do
      let guildId ← readRequiredStringParam params "guildId" false true
      let name ← readRequiredStringParam params "eventName" false true
      let startTime ← readRequiredStringParam params "startTime" false true
      let endTime ← readOptStringParam params "endTime" false true
      let description ← readOptStringParam params "desc" false true
      let channelId ← readOptStringParam params "channelId" false true
      let location ← readOptStringParam params "location" false true
      let entityType ← readOptStringParam params "eventType" false true
      Extract.pure (Dispatch.discordCall
        (DiscordReq.eventCreate guildId name startTime endTime description channelId location
          entityType))
    else Extract.throw (ExecError.unsupportedActionForProvider "event-create" provider)
  else if action = "timeout" ∨ action = "kick" ∨ action = "ban" then
    if provider = "discord" then do
      let guildId ← readRequiredStringParam params "guildId" false true
      let userId ← readRequiredStringParam params "userId" false true
      let durationMinutes ← readNumberParam params "durationMin" true
      let untilTime ← readOptStringParam params "until" false true
      let reason ← readOptStringParam params "reason" false true
      let deleteMessageDays ← readNumberParam params "deleteDays" true
      Extract.pure (Dispatch.discordCall
        (DiscordReq.modAction action guildId userId durationMinutes untilTime reason
          deleteMessageDays))
    else Extract.throw (ExecError.unsupportedActionForProvider action provider)
  else Extract.throw (ExecError.unknownAction action)

/-- Source: `createMessageTool.execute` — the common preamble (action
read, provider resolution, account id, gateway options, dry-run flag)
followed by the dispatch cascade. -/
def execute (opts : MessageToolOptions) (cfg : ClawdbotConfig) (params : Params) :
    Extract Dispatch := do
  let action ← readRequiredStringParam params "action" false true
  let providerRaw ← readOptStringParam params "provider" false true
  let provider ← resolveMessageProviderSelectionM cfg providerRaw
  let accountIdRead ← readOptStringParam params "accountId" false true
  let accountId :=
    match accountIdRead with
    | some a => some a
    | none => resolveAgentAccountId opts.agentAccountId
  let gatewayUrl ← readOptStringParam params "gatewayUrl" false false
  let gatewayToken ← readOptStringParam params "gatewayToken" false false
  let gatewayTimeout ← readNumberParam params "timeoutMs" false
  let gateway : GatewayOpts :=
    { url := gatewayUrl, token := gatewayToken, timeoutMs := gatewayTimeout,
      clientName := "agent", mode := "agent" }
  let dryRun := asBool (params "dryRun")
  executeBranch opts cfg params action provider accountId gateway dryRun

/-- The events every successful preamble records, in order. -/
def commonEvents : List Event :=
  [Event.readParam "action" true, Event.readParam "provider" false, Event.resolveProviderCall,
   Event.readParam "accountId" false, Event.readParam "gatewayUrl" false,
   Event.readParam "gatewayToken" false, Event.readParam "timeoutMs" false]

theorem readRequiredStringParam_str (params : Params) (key s : String) (log : List Event)
    (h : params key = some (JVal.vStr s)) (ht : strTrim s = s) (he : strIsEmpty s = false) :
    readRequiredStringParam params key false true log =
      (Except.ok s, log ++ [Event.readParam key true]) := by
  simp [readRequiredStringParam, Extract.run_bind, Extract.run_note, Extract.pure,
    Extract.throw, h, ht, he]

theorem readRequiredStringParam_strAE (params : Params) (key s : String) (log : List Event)
    (h : params key = some (JVal.vStr s)) (ht : strTrim s = s) :
    readRequiredStringParam params key true true log =
      (Except.ok s, log ++ [Event.readParam key true]) := by
  simp [readRequiredStringParam, Extract.run_bind, Extract.run_note, Extract.pure,
    Extract.throw, h, ht]

theorem readOptStringParam_none (params : Params) (key : String) (ae tr : Bool)
    (log : List Event) (h : params key = none) :
    readOptStringParam params key ae tr log =
      (Except.ok none, log ++ [Event.readParam key false]) := by
  simp [readOptStringParam, Extract.run_bind, Extract.run_note, Extract.pure, h]

theorem readOptStringParam_str (params : Params) (key s : String) (log : List Event)
    (h : params key = some (JVal.vStr s)) (ht : strTrim s = s) (he : strIsEmpty s = false) :
    readOptStringParam params key false true log =
      (Except.ok (some s), log ++ [Event.readParam key false]) := by
  simp [readOptStringParam, Extract.run_bind, Extract.run_note, Extract.pure, h, ht, he]

theorem readNumberParam_none (params : Params) (key : String) (i : Bool) (log : List Event)
    (h : params key = none) :
    readNumberParam params key i log = (Except.ok none, log ++ [Event.readParam key false]) := by
  simp [readNumberParam, Extract.run_bind, Extract.run_note, Extract.pure, h]

theorem readStringArrayParam_arr (params : Params) (key : String) (xs : List String)
    (r : Bool) (log : List Event) (h : params key = some (JVal.vStrArr xs)) :
    readStringArrayParam params key r log =
      (Except.ok (some xs), log ++ [Event.readParam key r]) := by
  simp [readStringArrayParam, Extract.run_bind, Extract.run_note, Extract.pure, h]

theorem resolveProvider_explicit (cfg : ClawdbotConfig) (p : String) (log : List Event) :
    resolveMessageProviderSelectionM cfg (some p) log =
      (Except.ok p, log ++ [Event.resolveProviderCall]) := by
  simp [resolveMessageProviderSelectionM, Extract.run_bind, Extract.run_note, Extract.pure]

/-- The common preamble of `execute`: with a well-formed action name, an
explicit provider override, and no account/gateway overrides, `execute`
reduces to the dispatch cascade, with exactly the common reads logged. -/
theorem execute_common (opts : MessageToolOptions) (cfg : ClawdbotConfig) (params : Params)
    (act prov : String) (log : List Event)
    (hA : params "action" = some (JVal.vStr act)) (hAt : strTrim act = act)
    (hAe : strIsEmpty act = false)
    (hP : params "provider" = some (JVal.vStr prov)) (hPt : strTrim prov = prov)
    (hPe : strIsEmpty prov = false)
    (hAcc : params "accountId" = none) (hGU : params "gatewayUrl" = none)
    (hGT : params "gatewayToken" = none) (hTM : params "timeoutMs" = none) :
    execute opts cfg params log =
      executeBranch opts cfg params act prov (resolveAgentAccountId opts.agentAccountId)
        { url := none, token := none, timeoutMs := none, clientName := "agent", mode := "agent" }
        (asBool (params "dryRun")) (log ++ commonEvents) := by
  simp [execute, Extract.run_bind, readRequiredStringParam_str, readOptStringParam_none,
    readOptStringParam_str, readNumberParam_none, resolveProvider_explicit, hA, hAt, hAe,
    hP, hPt, hPe, hAcc, hGU, hGT, hTM, commonEvents]

/-- The actions whose dispatch branch checks provider eligibility before
reading any action-specific parameter (all Discord-only actions). -/
def discordOnlyActions : List String :=
  ["permissions", "thread-create", "thread-list", "thread-reply", "search", "sticker",
   "role-info", "emoji-upload", "sticker-upload", "role-add", "role-remove", "channel-info",
   "channel-list", "voice-status", "event-list", "event-create", "timeout", "kick", "ban"]

theorem discordOnlyActions_wf :
    ∀ a ∈ discordOnlyActions, strTrim a = a ∧ strIsEmpty a = false := by decide

/-- For a Discord-only action and a non-Discord provider, the dispatch
cascade fails with `UnsupportedActionForProvider` and records no further
extractor read. -/
theorem executeBranch_discordOnly_unsupported (opts : MessageToolOptions)
    (cfg : ClawdbotConfig) (params : Params) (act prov : String) (accountId : Option String)
    (gateway : GatewayOpts) (dryRun : Bool) (log : List Event)
    (hmem : act ∈ discordOnlyActions) (hprov : prov ≠ "discord") :
    executeBranch opts cfg params act prov accountId gateway dryRun log =
      (Except.error (ExecError.unsupportedActionForProvider act prov), log) := by
  simp only [discordOnlyActions, List.mem_cons, List.not_mem_nil, or_false] at hmem
  rcases hmem with h|h|h|h|h|h|h|h|h|h|h|h|h|h|h|h|h|h|h <;> subst h <;>
    simp [executeBranch, hprov, Extract.run_throw]

/-- An action name outside the static action list falls through every
branch to the unknown-action failure, recording no further read. -/
theorem executeBranch_unknown (opts : MessageToolOptions) (cfg : ClawdbotConfig)
    (params : Params) (act prov : String) (accountId : Option String) (gateway : GatewayOpts)
    (dryRun : Bool) (log : List Event) (h : act ∉ AllMessageActions) :
    executeBranch opts cfg params act prov accountId gateway dryRun log =
      (Except.error (ExecError.unknownAction act), log) := by
  have h1 : act ≠ "send" := fun e => h (by rw [e]; decide)
  have h2 : act ≠ "poll" := fun e => h (by rw [e]; decide)
  have h3 : act ≠ "react" := fun e => h (by rw [e]; decide)
  have h4 : act ≠ "reactions" := fun e => h (by rw [e]; decide)
  have h5 : act ≠ "read" := fun e => h (by rw [e]; decide)
  have h6 : act ≠ "edit" := fun e => h (by rw [e]; decide)
  have h7 : act ≠ "delete" := fun e => h (by rw [e]; decide)
  have h8 : act ≠ "pin" := fun e => h (by rw [e]; decide)
  have h9 : act ≠ "unpin" := fun e => h (by rw [e]; decide)
  have h10 : act ≠ "list-pins" := fun e => h (by rw [e]; decide)
  have h11 : act ≠ "permissions" := fun e => h (by rw [e]; decide)
  have h12 : act ≠ "thread-create" := fun e => h (by rw [e]; decide)
  have h13 : act ≠ "thread-list" := fun e => h (by rw [e]; decide)
  have h14 : act ≠ "thread-reply" := fun e => h (by rw [e]; decide)
  have h15 : act ≠ "search" := fun e => h (by rw [e]; decide)
  have h16 : act ≠ "sticker" := fun e => h (by rw [e]; decide)
  have h17 : act ≠ "member-info" := fun e => h (by rw [e]; decide)
  have h18 : act ≠ "role-info" := fun e => h (by rw [e]; decide)
  have h19 : act ≠ "emoji-list" := fun e => h (by rw [e]; decide)
  have h20 : act ≠ "emoji-upload" := fun e => h (by rw [e]; decide)
  have h21 : act ≠ "sticker-upload" := fun e => h (by rw [e]; decide)
  have h22 : act ≠ "role-add" := fun e => h (by rw [e]; decide)
  have h23 : act ≠ "role-remove" := fun e => h (by rw [e]; decide)
  have h24 : act ≠ "channel-info" := fun e => h (by rw [e]; decide)
  have h25 : act ≠ "channel-list" := fun e => h (by rw [e]; decide)
  have h26 : act ≠ "voice-status" := fun e => h (by rw [e]; decide)
  have h27 : act ≠ "event-list" := fun e => h (by rw [e]; decide)
  have h28 : act ≠ "event-create" := fun e => h (by rw [e]; decide)
  have h29 : act ≠ "timeout" := fun e => h (by rw [e]; decide)
  have h30 : act ≠ "kick" := fun e => h (by rw [e]; decide)
  have h31 : act ≠ "ban" := fun e => h (by rw [e]; decide)
  simp [executeBranch, h1, h2, h3, h4, h5, h6, h7, h8, h9, h10, h11, h12, h13, h14, h15, h16, h17, h18, h19, h20, h21, h22, h23, h24, h25, h26, h27, h28, h29, h30, h31, Extract.run_throw]

/-- The empty configuration snapshot: no provider section at all. -/
def emptyCfg : ClawdbotConfig :=
  { discord := none, slack := none, telegram := none, whatsapp := none, msteams := none }

/-- Tool options with no session context. -/
def opts0 : MessageToolOptions :=
  { agentAccountId := none, currentChannelId := none, currentThreadTs := none,
    replyToMode := none, hasRepliedRefValue := none }

/-- A configuration with a single enabled, credentialed Discord account
and all gates at their defaults. -/
def discordCfg : ClawdbotConfig :=
  { discord := some { accounts := [{ enabled := true, tokenSource := "env" }], actions := none },
    slack := none, telegram := none, whatsapp := none, msteams := none }

/-- With `dryRun = true`, the `send` branch dispatches through the
provider-agnostic `sendMessage` path, whatever the resolved provider. -/
theorem executeBranch_send_dryRun (opts : MessageToolOptions) (cfg : ClawdbotConfig)
    (params : Params) (prov : String) (accountId : Option String) (gateway : GatewayOpts)
    (target message : String) (log : List Event)
    (hto : params "to" = some (JVal.vStr target)) (htot : strTrim target = target)
    (htoe : strIsEmpty target = false)
    (hm : params "message" = some (JVal.vStr message)) (hmt : strTrim message = message)
    (hmed : params "media" = none) (hrt : params "replyTo" = none)
    (hth : params "threadId" = none) (hgif : params "gifPlayback" = none)
    (hbe : params "bestEffort" = none) :
    executeBranch opts cfg params "send" prov accountId gateway true log =
      (Except.ok (Dispatch.sendMessageCall
        { target := target, content := message, mediaUrl := none,
          provider := if strIsEmpty prov then none else some prov,
          accountId := accountId, gifPlayback := false, dryRun := true,
          bestEffort := none, gateway := gateway }),
       log ++ [Event.readParam "to" true, Event.readParam "message" true,
               Event.readParam "media" false, Event.readParam "replyTo" false,
               Event.readParam "threadId" false]) := by
  simp [executeBranch, Extract.run_bind, Extract.pure, readRequiredStringParam_str,
    readRequiredStringParam_strAE, readOptStringParam_none, asOptBool, orUndefined,
    hto, htot, htoe, hm, hmt, hmed, hrt, hth, hgif, hbe]

/-- With `dryRun = true`, the `poll` branch dispatches through the
provider-agnostic `sendPoll` path, whatever the resolved provider. -/
theorem executeBranch_poll_dryRun (opts : MessageToolOptions) (cfg : ClawdbotConfig)
    (params : Params) (prov : String) (accountId : Option String) (gateway : GatewayOpts)
    (target question : String) (answers : List String) (log : List Event)
    (hto : params "to" = some (JVal.vStr target)) (htot : strTrim target = target)
    (htoe : strIsEmpty target = false)
    (hq : params "pollQuestion" = some (JVal.vStr question))
    (hqt : strTrim question = question) (hqe : strIsEmpty question = false)
    (hopt : params "pollOption" = some (JVal.vStrArr answers))
    (hmulti : params "pollMulti" = none) (hdur : params "pollDurationHours" = none) :
    executeBranch opts cfg params "poll" prov accountId gateway true log =
      (Except.ok (Dispatch.sendPollCall
        { target := target, question := question, options := answers, maxSelections := 1,
          durationHours := none, provider := prov, dryRun := true, gateway := gateway }),
       log ++ [Event.readParam "to" true, Event.readParam "pollQuestion" true,
               Event.readParam "pollOption" true,
               Event.readParam "pollDurationHours" false]) := by
  simp [executeBranch, Extract.run_bind, Extract.pure, readRequiredStringParam_str,
    readStringArrayParam_arr, readNumberParam_none, asOptBool,
    hto, htot, htoe, hq, hqt, hqe, hopt, hmulti, hdur]

/-- With `dryRun = false` and a resolved provider that is none of
discord, slack, telegram, the `send` branch falls through to the
provider-agnostic `sendMessage` path. -/
theorem executeBranch_send_fallback (opts : MessageToolOptions) (cfg : ClawdbotConfig)
    (params : Params) (prov : String) (accountId : Option String) (gateway : GatewayOpts)
    (target message : String) (log : List Event)
    (hpd : prov ≠ "discord") (hps : prov ≠ "slack") (hptl : prov ≠ "telegram")
    (hto : params "to" = some (JVal.vStr target)) (htot : strTrim target = target)
    (htoe : strIsEmpty target = false)
    (hm : params "message" = some (JVal.vStr message)) (hmt : strTrim message = message)
    (hmed : params "media" = none) (hrt : params "replyTo" = none)
    (hth : params "threadId" = none) (hgif : params "gifPlayback" = none)
    (hbe : params "bestEffort" = none) :
    executeBranch opts cfg params "send" prov accountId gateway false log =
      (Except.ok (Dispatch.sendMessageCall
        { target := target, content := message, mediaUrl := none,
          provider := if strIsEmpty prov then none else some prov,
          accountId := accountId, gifPlayback := false, dryRun := false,
          bestEffort := none, gateway := gateway }),
       log ++ [Event.readParam "to" true, Event.readParam "message" true,
               Event.readParam "media" false, Event.readParam "replyTo" false,
               Event.readParam "threadId" false]) := by
  simp [executeBranch, Extract.run_bind, Extract.pure, readRequiredStringParam_str,
    readRequiredStringParam_strAE, readOptStringParam_none, asOptBool, orUndefined,
    hpd, hps, hptl, hto, htot, htoe, hm, hmt, hmed, hrt, hth, hgif, hbe]

def sendDryParams : Params :=
  paramsOfList [("action", JVal.vStr "send"), ("provider", JVal.vStr "signal"),
    ("to", JVal.vStr "+123"), ("message", JVal.vStr "hi"), ("dryRun", JVal.vBool true)]

def pollDryParams : Params :=
  paramsOfList [("action", JVal.vStr "poll"), ("provider", JVal.vStr "signal"),
    ("to", JVal.vStr "+123"), ("pollQuestion", JVal.vStr "Q"),
    ("pollOption", JVal.vStrArr ["a", "b"]), ("dryRun", JVal.vBool true)]

def reactDryParams : Params :=
  paramsOfList [("action", JVal.vStr "react"), ("provider", JVal.vStr "discord"),
    ("channelId", JVal.vStr "c1"), ("messageId", JVal.vStr "m1"), ("dryRun", JVal.vBool true)]

def reactMsteamsParams : Params :=
  paramsOfList [("action", JVal.vStr "react"), ("provider", JVal.vStr "msteams"),
    ("messageId", JVal.vStr "m1")]

def permissionsSlackParams : Params :=
  paramsOfList [("action", JVal.vStr "permissions"), ("provider", JVal.vStr "slack")]

def unknownActionParams : Params :=
  paramsOfList [("action", JVal.vStr "transmogrify"), ("provider", JVal.vStr "discord")]

def sendSignalParams : Params :=
  paramsOfList [("action", JVal.vStr "send"), ("provider", JVal.vStr "signal"),
    ("to", JVal.vStr "+123"), ("message", JVal.vStr "hi")]

/-- C1 (amended): for the `send` and `poll` actions, `dryRun=true` always
short-circuits to the provider-agnostic `sendMessage`/`sendPoll` path,
whatever the resolved provider; the original claim's quantification over
every catalog action fails because the other action branches never
consult `dryRun` (see the counterexample). -/
theorem claim1_dry_run_short_circuits_send_and_poll :
    (∀ (opts : MessageToolOptions) (cfg : ClawdbotConfig) (params : Params)
       (prov target message : String),
      params "action" = some (JVal.vStr "send") →
      params "provider" = some (JVal.vStr prov) → strTrim prov = prov →
      strIsEmpty prov = false →
      params "accountId" = none → params "gatewayUrl" = none →
      params "gatewayToken" = none → params "timeoutMs" = none →
      params "dryRun" = some (JVal.vBool true) →
      params "to" = some (JVal.vStr target) → strTrim target = target →
      strIsEmpty target = false →
      params "message" = some (JVal.vStr message) → strTrim message = message →
      params "media" = none → params "replyTo" = none → params "threadId" = none →
      params "gifPlayback" = none → params "bestEffort" = none →
      execute opts cfg params [] =
        (Except.ok (Dispatch.sendMessageCall
          { target := target, content := message, mediaUrl := none, provider := some prov,
            accountId := resolveAgentAccountId opts.agentAccountId, gifPlayback := false,
            dryRun := true, bestEffort := none,
            gateway := { url := none, token := none, timeoutMs := none,
                         clientName := "agent", mode := "agent" } }),
         commonEvents ++ [Event.readParam "to" true, Event.readParam "message" true,
           Event.readParam "media" false, Event.readParam "replyTo" false,
           Event.readParam "threadId" false])) ∧
    (∀ (opts : MessageToolOptions) (cfg : ClawdbotConfig) (params : Params)
       (prov target question : String) (answers : List String),
      params "action" = some (JVal.vStr "poll") →
      params "provider" = some (JVal.vStr prov) → strTrim prov = prov →
      strIsEmpty prov = false →
      params "accountId" = none → params "gatewayUrl" = none →
      params "gatewayToken" = none → params "timeoutMs" = none →
      params "dryRun" = some (JVal.vBool true) →
      params "to" = some (JVal.vStr target) → strTrim target = target →
      strIsEmpty target = false →
      params "pollQuestion" = some (JVal.vStr question) → strTrim question = question →
      strIsEmpty question = false →
      params "pollOption" = some (JVal.vStrArr answers) →
      params "pollMulti" = none → params "pollDurationHours" = none →
      execute opts cfg params [] =
        (Except.ok (Dispatch.sendPollCall
          { target := target, question := question, options := answers, maxSelections := 1,
            durationHours := none, provider := prov, dryRun := true,
            gateway := { url := none, token := none, timeoutMs := none,
                         clientName := "agent", mode := "agent" } }),
         commonEvents ++ [Event.readParam "to" true, Event.readParam "pollQuestion" true,
           Event.readParam "pollOption" true, Event.readParam "pollDurationHours" false])) := by
  constructor
  · intro opts cfg params prov target message hA hP hPt hPe hAcc hGU hGT hTM hdry hto htot
      htoe hm hmt hmed hrt hth hgif hbe
    rw [execute_common opts cfg params "send" prov [] hA (by decide) (by decide) hP hPt hPe
      hAcc hGU hGT hTM, hdry]
    rw [show asBool (some (JVal.vBool true)) = true from rfl]
    rw [executeBranch_send_dryRun opts cfg params prov _ _ target message _ hto htot htoe
      hm hmt hmed hrt hth hgif hbe]
    simp [hPe]
  · intro opts cfg params prov target question answers hA hP hPt hPe hAcc hGU hGT hTM hdry
      hto htot htoe hq hqt hqe hopt hmulti hdur
    rw [execute_common opts cfg params "poll" prov [] hA (by decide) (by decide) hP hPt hPe
      hAcc hGU hGT hTM, hdry]
    rw [show asBool (some (JVal.vBool true)) = true from rfl]
    rw [executeBranch_poll_dryRun opts cfg params prov _ _ target question answers _ hto htot
      htoe hq hqt hqe hopt hmulti hdur]
    simp

theorem claim1_witness :
    execute opts0 emptyCfg sendDryParams [] =
      (Except.ok (Dispatch.sendMessageCall
        { target := "+123", content := "hi", mediaUrl := none, provider := some "signal",
          accountId := none, gifPlayback := false, dryRun := true, bestEffort := none,
          gateway := { url := none, token := none, timeoutMs := none,
                       clientName := "agent", mode := "agent" } }),
       commonEvents ++ [Event.readParam "to" true, Event.readParam "message" true,
         Event.readParam "media" false, Event.readParam "replyTo" false,
         Event.readParam "threadId" false]) ∧
    execute opts0 emptyCfg pollDryParams [] =
      (Except.ok (Dispatch.sendPollCall
        { target := "+123", question := "Q", options := ["a", "b"], maxSelections := 1,
          durationHours := none, provider := "signal", dryRun := true,
          gateway := { url := none, token := none, timeoutMs := none,
                       clientName := "agent", mode := "agent" } }),
       commonEvents ++ [Event.readParam "to" true, Event.readParam "pollQuestion" true,
         Event.readParam "pollOption" true, Event.readParam "pollDurationHours" false]) :=
  ⟨claim1_dry_run_short_circuits_send_and_poll.1 opts0 emptyCfg sendDryParams "signal" "+123"
      "hi" (by decide) (by decide) (by decide) (by decide) (by decide) (by decide) (by decide)
      (by decide) (by decide) (by decide) (by decide) (by decide) (by decide) (by decide)
      (by decide) (by decide) (by decide) (by decide) (by decide),
   claim1_dry_run_short_circuits_send_and_poll.2 opts0 emptyCfg pollDryParams "signal" "+123"
      "Q" ["a", "b"] (by decide) (by decide) (by decide) (by decide) (by decide) (by decide)
      (by decide) (by decide) (by decide) (by decide) (by decide) (by decide) (by decide)
      (by decide) (by decide) (by decide) (by decide) (by decide)⟩

/-- C1 counterexample: with a Discord account enabled and the `react`
action in the catalog, executing `react` with `dryRun=true` still
invokes the Discord-specific handler, not the generic path. -/
theorem claim1_counterexample_react_dry_run_uses_discord_handler :
    "react" ∈ buildMessageActionList discordCfg ∧
    (execute opts0 discordCfg reactDryParams []).1 =
      Except.ok (Dispatch.discordCall (DiscordReq.react "c1" "m1" none none)) ∧
    Dispatch.isGeneric (Dispatch.discordCall (DiscordReq.react "c1" "m1" none none)) =
      false := by
  decide

/-- For `emoji-list` and a provider outside discord/slack, the dispatch
cascade fails with `UnsupportedActionForProvider` without any
action-specific extractor read. -/
theorem executeBranch_emojiList_unsupported (opts : MessageToolOptions)
    (cfg : ClawdbotConfig) (params : Params) (prov : String) (accountId : Option String)
    (gateway : GatewayOpts) (dryRun : Bool) (log : List Event)
    (hpd : prov ≠ "discord") (hps : prov ≠ "slack") :
    executeBranch opts cfg params "emoji-list" prov accountId gateway dryRun log =
      (Except.error (ExecError.unsupportedActionForProvider "emoji-list" prov), log) := by
  simp [executeBranch, hpd, hps, Extract.run_throw]

def emojiListMsteamsParams : Params :=
  paramsOfList [("action", JVal.vStr "emoji-list"), ("provider", JVal.vStr "msteams")]

/-- C2 (amended): for the actions whose branch tests provider
eligibility first — the Discord-only actions and `emoji-list` — a
resolved provider outside the action's allowed set fails with
`UnsupportedActionForProvider` before any action-specific parameter
extraction (the recorded events are exactly the common preamble reads);
the original claim's quantification over every known action fails
because the remaining multi-provider branches extract action-specific
parameters first: `react`, `reactions`, `edit`, `delete`, `pin`,
`unpin` and `member-info` read a required field (see the
counterexample), `list-pins` resolves its target, and `read` performs
its optional `limit`/`before`/`after`/`around` reads before the
check. -/
theorem claim2_eligibility_first_for_provider_checked_branches :
    (∀ (opts : MessageToolOptions) (cfg : ClawdbotConfig) (params : Params)
       (act prov : String),
      act ∈ discordOnlyActions → prov ≠ "discord" →
      params "action" = some (JVal.vStr act) →
      params "provider" = some (JVal.vStr prov) → strTrim prov = prov →
      strIsEmpty prov = false →
      params "accountId" = none → params "gatewayUrl" = none →
      params "gatewayToken" = none → params "timeoutMs" = none →
      execute opts cfg params [] =
        (Except.error (ExecError.unsupportedActionForProvider act prov), commonEvents)) ∧
    (∀ (opts : MessageToolOptions) (cfg : ClawdbotConfig) (params : Params) (prov : String),
      prov ≠ "discord" → prov ≠ "slack" →
      params "action" = some (JVal.vStr "emoji-list") →
      params "provider" = some (JVal.vStr prov) → strTrim prov = prov →
      strIsEmpty prov = false →
      params "accountId" = none → params "gatewayUrl" = none →
      params "gatewayToken" = none → params "timeoutMs" = none →
      execute opts cfg params [] =
        (Except.error (ExecError.unsupportedActionForProvider "emoji-list" prov),
         commonEvents)) := by
  constructor
  · intro opts cfg params act prov hmem hprov hA hP hPt hPe hAcc hGU hGT hTM
    obtain ⟨hAt, hAe⟩ := discordOnlyActions_wf act hmem
    rw [execute_common opts cfg params act prov [] hA hAt hAe hP hPt hPe hAcc hGU hGT hTM,
      executeBranch_discordOnly_unsupported opts cfg params act prov _ _ _ _ hmem hprov]
    simp
  · intro opts cfg params prov hpd hps hA hP hPt hPe hAcc hGU hGT hTM
    rw [execute_common opts cfg params "emoji-list" prov [] hA (by decide) (by decide) hP
      hPt hPe hAcc hGU hGT hTM,
      executeBranch_emojiList_unsupported opts cfg params prov _ _ _ _ hpd hps]
    simp

theorem claim2_witness :
    execute opts0 emptyCfg permissionsSlackParams [] =
      (Except.error (ExecError.unsupportedActionForProvider "permissions" "slack"),
       commonEvents) ∧
    execute opts0 emptyCfg emojiListMsteamsParams [] =
      (Except.error (ExecError.unsupportedActionForProvider "emoji-list" "msteams"),
       commonEvents) :=
  ⟨claim2_eligibility_first_for_provider_checked_branches.1 opts0 emptyCfg
      permissionsSlackParams "permissions" "slack" (by decide) (by decide) (by decide)
      (by decide) (by decide) (by decide) (by decide) (by decide) (by decide) (by decide),
   claim2_eligibility_first_for_provider_checked_branches.2 opts0 emptyCfg
      emojiListMsteamsParams "msteams" (by decide) (by decide) (by decide) (by decide)
      (by decide) (by decide) (by decide) (by decide) (by decide) (by decide)⟩

/-- C2 counterexample: `react` with the unsupported provider `msteams`
does fail with `UnsupportedActionForProvider`, but only after the
required `messageId` field has been extracted from the bag. -/
theorem claim2_counterexample_react_extracts_before_eligibility :
    (execute opts0 emptyCfg reactMsteamsParams []).1 =
      Except.error (ExecError.unsupportedActionForProvider "react" "msteams") ∧
    Event.readParam "messageId" true ∈ (execute opts0 emptyCfg reactMsteamsParams []).2 := by
  decide

/-- C3 (amended): a request whose action name is outside the static
action list fails with `UnknownAction(name)`, but provider resolution is
attempted first: `resolveMessageProviderSelection` is invoked on every
request, including unknown actions (see the counterexample refuting the
claimed ordering). -/
theorem claim3_unknown_action_fails_after_resolution (opts : MessageToolOptions)
    (cfg : ClawdbotConfig) (params : Params) (act prov : String)
    (hmem : act ∉ AllMessageActions) (hAt : strTrim act = act) (hAe : strIsEmpty act = false)
    (hA : params "action" = some (JVal.vStr act))
    (hP : params "provider" = some (JVal.vStr prov)) (hPt : strTrim prov = prov)
    (hPe : strIsEmpty prov = false)
    (hAcc : params "accountId" = none) (hGU : params "gatewayUrl" = none)
    (hGT : params "gatewayToken" = none) (hTM : params "timeoutMs" = none) :
    execute opts cfg params [] =
      (Except.error (ExecError.unknownAction act), commonEvents) ∧
    Event.resolveProviderCall ∈ (execute opts cfg params []).2 := by
  have h1 : execute opts cfg params [] =
      (Except.error (ExecError.unknownAction act), commonEvents) := by
    rw [execute_common opts cfg params act prov [] hA hAt hAe hP hPt hPe hAcc hGU hGT hTM,
      executeBranch_unknown opts cfg params act prov _ _ _ _ hmem]
    simp
  refine ⟨h1, ?_⟩
  rw [h1]
  simp [commonEvents]

theorem claim3_witness :
    execute opts0 emptyCfg unknownActionParams [] =
      (Except.error (ExecError.unknownAction "transmogrify"), commonEvents) ∧
    Event.resolveProviderCall ∈ (execute opts0 emptyCfg unknownActionParams []).2 :=
  claim3_unknown_action_fails_after_resolution opts0 emptyCfg unknownActionParams
    "transmogrify" "discord" (by decide) (by decide) (by decide) (by decide) (by decide)
    (by decide) (by decide) (by decide) (by decide) (by decide) (by decide)

/-- C3 counterexample: executing an unknown action does end in
`UnknownAction`, but the provider-resolution collaborator is invoked
first, contradicting the claim that resolution is not attempted. -/
theorem claim3_counterexample_resolution_invoked_for_unknown_action :
    (execute opts0 emptyCfg unknownActionParams []).1 =
      Except.error (ExecError.unknownAction "transmogrify") ∧
    Event.resolveProviderCall ∈ (execute opts0 emptyCfg unknownActionParams []).2 := by
  decide

/-- C10: for `action="send"`, `dryRun` falsy, and a resolved provider
outside discord/slack/telegram, `execute` invokes the generic
`sendMessage` collaborator with the extracted target, content, media,
provider, account and gateway fields, and no provider-specific
handler. -/
theorem claim10_send_fallback_uses_generic_sendMessage (opts : MessageToolOptions)
    (cfg : ClawdbotConfig) (params : Params) (prov target message : String)
    (hpd : prov ≠ "discord") (hps : prov ≠ "slack") (hptl : prov ≠ "telegram")
    (hA : params "action" = some (JVal.vStr "send"))
    (hP : params "provider" = some (JVal.vStr prov)) (hPt : strTrim prov = prov)
    (hPe : strIsEmpty prov = false)
    (hAcc : params "accountId" = none) (hGU : params "gatewayUrl" = none)
    (hGT : params "gatewayToken" = none) (hTM : params "timeoutMs" = none)
    (hdry : params "dryRun" = none)
    (hto : params "to" = some (JVal.vStr target)) (htot : strTrim target = target)
    (htoe : strIsEmpty target = false)
    (hm : params "message" = some (JVal.vStr message)) (hmt : strTrim message = message)
    (hmed : params "media" = none) (hrt : params "replyTo" = none)
    (hth : params "threadId" = none) (hgif : params "gifPlayback" = none)
    (hbe : params "bestEffort" = none) :
    execute opts cfg params [] =
      (Except.ok (Dispatch.sendMessageCall
        { target := target, content := message, mediaUrl := none, provider := some prov,
          accountId := resolveAgentAccountId opts.agentAccountId, gifPlayback := false,
          dryRun := false, bestEffort := none,
          gateway := { url := none, token := none, timeoutMs := none,
                       clientName := "agent", mode := "agent" } }),
       commonEvents ++ [Event.readParam "to" true, Event.readParam "message" true,
         Event.readParam "media" false, Event.readParam "replyTo" false,
         Event.readParam "threadId" false]) := by
  rw [execute_common opts cfg params "send" prov [] hA (by decide) (by decide) hP hPt hPe
    hAcc hGU hGT hTM, hdry]
  rw [show asBool none = false from rfl]
  rw [executeBranch_send_fallback opts cfg params prov _ _ target message _ hpd hps hptl
    hto htot htoe hm hmt hmed hrt hth hgif hbe]
  simp [hPe]

theorem claim10_witness :
    execute opts0 emptyCfg sendSignalParams [] =
      (Except.ok (Dispatch.sendMessageCall
        { target := "+123", content := "hi", mediaUrl := none, provider := some "signal",
          accountId := none, gifPlayback := false, dryRun := false, bestEffort := none,
          gateway := { url := none, token := none, timeoutMs := none,
                       clientName := "agent", mode := "agent" } }),
       commonEvents ++ [Event.readParam "to" true, Event.readParam "message" true,
         Event.readParam "media" false, Event.readParam "replyTo" false,
         Event.readParam "threadId" false]) :=
  claim10_send_fallback_uses_generic_sendMessage opts0 emptyCfg sendSignalParams "signal"
    "+123" "hi" (by decide) (by decide) (by decide) (by decide) (by decide) (by decide)
    (by decide) (by decide) (by decide) (by decide) (by decide) (by decide) (by decide)
    (by decide) (by decide) (by decide) (by decide) (by decide) (by decide) (by decide)
    (by decide) (by decide)

theorem mem_ite_nil {α : Type} {c : Prop} [Decidable c] {l : List α} {a : α} :
    (a ∈ if c then l else []) ↔ c ∧ a ∈ l := by
  by_cases h : c <;> simp [h]

/-- The Capability Registry is empty: no enabled, credentialed account of
any provider (for WhatsApp and MS Teams, whose enablement signal is the
presence of a configured/credentialed section, that section is absent or
unusable). -/
def zeroEnabledAccounts (cfg : ClawdbotConfig) : Bool :=
  (discordAccounts cfg).isEmpty && (slackAccounts cfg).isEmpty &&
    (telegramAccounts cfg).isEmpty && cfg.whatsapp.isNone && !(msteamsEnabled cfg)

/-- C4: with zero enabled provider accounts, the action catalog is
exactly `{"send"}`. -/
theorem claim4_zero_accounts_catalog_is_send (cfg : ClawdbotConfig)
    (h : zeroEnabledAccounts cfg = true) : buildMessageActionList cfg = ["send"] := by
  simp only [zeroEnabledAccounts, Bool.and_eq_true, Bool.not_eq_true',
    Option.isNone_iff_eq_none, List.isEmpty_iff] at h
  obtain ⟨⟨⟨⟨hd, hs⟩, ht⟩, hw⟩, hm⟩ := h
  simp [buildMessageActionList, canAnyReactions, canDiscordReactions, canSlackReactions,
    canTelegramReactions, canWhatsAppReactions, canDiscordMessages, canSlackMessages,
    canDiscordPins, canSlackPins, canDiscordPolls, canWhatsAppPolls, canDiscordRoles,
    discordEnabled, slackEnabled, telegramEnabled, isSlackActionEnabled, hd, hs, ht, hw, hm]

theorem claim4_witness :
    zeroEnabledAccounts emptyCfg = true ∧ buildMessageActionList emptyCfg = ["send"] :=
  ⟨by decide, claim4_zero_accounts_catalog_is_send emptyCfg (by decide)⟩

/-- C5: `poll` is in the catalog exactly when an enabled Discord account
exists with the `polls` gate granting, or a WhatsApp section grants
`polls`, or an MS-Teams-like provider is enabled with resolvable
credentials. -/
theorem claim5_poll_membership (cfg : ClawdbotConfig) :
    "poll" ∈ buildMessageActionList cfg ↔
      (canDiscordPolls cfg || canWhatsAppPolls cfg || msteamsEnabled cfg) = true := by
  simp [buildMessageActionList, mem_ite_nil]

/-- The explicitly configured value of a gate key, if any. -/
def explicitGate (actions : Option GateMap) (key : String) : Option Bool :=
  match actions with
  | none => none
  | some m =>
      match m.lookup key with
      | some (some b) => some b
      | _ => none

/-- A gate with default `false` grants exactly when the key is explicitly
set to `true`; absence of the key denies. -/
theorem createActionGate_false_default (actions : Option GateMap) (key : String) :
    createActionGate actions key false = true ↔ explicitGate actions key = some true := by
  cases actions with
  | none => simp [createActionGate, explicitGate]
  | some m =>
      cases h : m.lookup key with
      | none => simp [createActionGate, explicitGate, h]
      | some ob => cases ob <;> simp [createActionGate, explicitGate, h]

/-- C6: the privileged actions `role-add`/`role-remove` (`roles` gate)
and `timeout`/`kick`/`ban` (`moderation` gate) are in the catalog only
for an enabled Discord setup whose gate key is explicitly `true`;
absence of the key (the default) excludes them. -/
theorem claim6_privileged_actions_require_explicit_gates (cfg : ClawdbotConfig) :
    ("role-add" ∈ buildMessageActionList cfg ↔
      discordEnabled cfg = true ∧ explicitGate (discordActionsOf cfg) "roles" = some true) ∧
    ("role-remove" ∈ buildMessageActionList cfg ↔
      discordEnabled cfg = true ∧ explicitGate (discordActionsOf cfg) "roles" = some true) ∧
    ("timeout" ∈ buildMessageActionList cfg ↔
      discordEnabled cfg = true ∧
        explicitGate (discordActionsOf cfg) "moderation" = some true) ∧
    ("kick" ∈ buildMessageActionList cfg ↔
      discordEnabled cfg = true ∧
        explicitGate (discordActionsOf cfg) "moderation" = some true) ∧
    ("ban" ∈ buildMessageActionList cfg ↔
      discordEnabled cfg = true ∧
        explicitGate (discordActionsOf cfg) "moderation" = some true) := by
  refine ⟨?_, ?_, ?_, ?_, ?_⟩ <;>
    simp [buildMessageActionList, mem_ite_nil, canDiscordRoles, discordGate,
      Bool.and_eq_true, createActionGate_false_default]

/-- C9: the catalog always contains `send`, and it is a pure function of
the configuration snapshot: identical inputs give identical catalogs. -/
theorem claim9_send_always_present_and_deterministic (cfg1 cfg2 : ClawdbotConfig)
    (h : cfg1 = cfg2) :
    "send" ∈ buildMessageActionList cfg1 ∧
      buildMessageActionList cfg1 = buildMessageActionList cfg2 := by
  constructor
  · simp [buildMessageActionList]
  · rw [h]

theorem claim9_witness :
    "send" ∈ buildMessageActionList emptyCfg ∧
      buildMessageActionList emptyCfg = buildMessageActionList emptyCfg :=
  claim9_send_always_present_and_deterministic emptyCfg emptyCfg rfl

/-- Claim-side condition for C7, following the spec's words: some
enabled, credentialed Telegram account itself carries the inline-buttons
capability. -/
def specButtonsRequired (cfg : ClawdbotConfig) : Bool :=
  (telegramAccounts cfg).any (fun a =>
    (normalizedCaps (match a.capabilities with
      | none => []
      | some c => c)).contains "inlinebuttons")

/-- A configuration whose only inline-buttons capability sits on the
global telegram capability list, not on any enabled account. -/
def telegramGlobalCapCfg : ClawdbotConfig :=
  { discord := none, slack := none,
    telegram := some
      { accounts := [{ enabled := true, tokenSource := "env", capabilities := none }],
        actions := none, capabilities := some ["inlineButtons"] },
    whatsapp := none, msteams := none }

/-- C7 counterexample: the `buttons` field is advertised in every schema
variant although no enabled telegram account has the capability enabled
on the account itself — the source also collects the global capability
list and the capabilities of disabled accounts. -/
theorem claim7_counterexample_global_capability_includes_buttons :
    ((buildMessageToolSchema telegramGlobalCapCfg).all
      (fun v => v.props.contains "buttons")) = true ∧
    specButtonsRequired telegramGlobalCapCfg = false := by
  decide

/-- C7 (amended): the `buttons` field is included in every advertised
schema variant exactly when an enabled, credentialed telegram account
exists and `inlinebuttons` appears (trimmed, lowercased) in the global
telegram capability list or in any configured telegram account's
capability list, enabled or not. -/
theorem claim7_buttons_iff_telegram_enabled_and_collected_capability (cfg : ClawdbotConfig)
    (v : SchemaVariant) (hv : v ∈ buildMessageToolSchema cfg) :
    "buttons" ∈ v.props ↔ telegramButtonsIncluded cfg = true := by
  have hp : v.props =
      (if telegramButtonsIncluded cfg then MessageToolCommonSchemaKeys
       else MessageToolCommonSchemaKeys.filter (fun k => k != "buttons")) := by
    simp only [buildMessageToolSchema, buildMessageToolSchemaFromActions] at hv
    rcases List.mem_append.mp hv with h | h
    · obtain ⟨-, h2⟩ := mem_ite_nil.mp h
      simp only [List.mem_singleton] at h2
      rw [h2]
    · obtain ⟨-, h2⟩ := mem_ite_nil.mp h
      simp only [List.mem_singleton] at h2
      rw [h2]
  rw [hp]
  cases hb : telegramButtonsIncluded cfg <;> simp [hb] <;> decide

theorem claim7_witness :
    "buttons" ∈ (SchemaVariant.mk ["send"] ["action", "to", "message"]
        MessageToolCommonSchemaKeys).props ↔
      telegramButtonsIncluded telegramGlobalCapCfg = true :=
  claim7_buttons_iff_telegram_enabled_and_collected_capability telegramGlobalCapCfg
    (SchemaVariant.mk ["send"] ["action", "to", "message"] MessageToolCommonSchemaKeys)
    (by decide)

theorem perm_isEmpty {α : Type} {l1 l2 : List α} (h : List.Perm l1 l2) :
    l1.isEmpty = l2.isEmpty := by
  cases l1 <;> cases l2 <;> simp_all

theorem perm_any {α : Type} {l1 l2 : List α} (h : List.Perm l1 l2) (p : α → Bool) :
    l1.any p = l2.any p := by
  apply Bool.eq_iff_iff.mpr
  simp only [List.any_eq_true]
  constructor
  · rintro ⟨x, hx, hp⟩
    exact ⟨x, h.mem_iff.mp hx, hp⟩
  · rintro ⟨x, hx, hp⟩
    exact ⟨x, h.mem_iff.mpr hx, hp⟩

/-- The raw Discord account list of a configuration. -/
def accountsOfDiscord (cfg : ClawdbotConfig) : List DiscordAccount :=
  match cfg.discord with
  | none => []
  | some d => d.accounts

def accountsOfSlack (cfg : ClawdbotConfig) : List SlackAccount :=
  match cfg.slack with
  | none => []
  | some s => s.accounts

def accountsOfTelegram (cfg : ClawdbotConfig) : List TelegramAccount :=
  match cfg.telegram with
  | none => []
  | some t => t.accounts

/-- The same configuration with each provider's account list replaced
(providers without a configured section are left untouched). -/
def withAccounts (cfg : ClawdbotConfig) (da : List DiscordAccount) (sa : List SlackAccount)
    (ta : List TelegramAccount) : ClawdbotConfig :=
  { cfg with
    discord := cfg.discord.map (fun d => { d with accounts := da }),
    slack := cfg.slack.map (fun s => { s with accounts := sa }),
    telegram := cfg.telegram.map (fun t => { t with accounts := ta }) }

theorem discordEnabled_perm (cfg : ClawdbotConfig) (da : List DiscordAccount)
    (sa : List SlackAccount) (ta : List TelegramAccount)
    (hd : List.Perm da (accountsOfDiscord cfg)) :
    discordEnabled (withAccounts cfg da sa ta) = discordEnabled cfg := by
  cases hcd : cfg.discord with
  | none =>
      have hnil : da = [] := List.perm_nil.mp (by simpa [accountsOfDiscord, hcd] using hd)
      simp [withAccounts, discordEnabled, discordAccounts, listEnabledDiscordAccounts, hcd,
        hnil]
  | some d =>
      simp only [accountsOfDiscord, hcd] at hd
      have h2 := (hd.filter (fun a => a.enabled)).filter (fun a => a.tokenSource != "none")
      simp only [withAccounts, discordEnabled, discordAccounts, listEnabledDiscordAccounts,
        hcd, Option.map_some']
      rw [perm_isEmpty h2]

theorem discordActionsOf_withAccounts (cfg : ClawdbotConfig) (da : List DiscordAccount)
    (sa : List SlackAccount) (ta : List TelegramAccount) :
    discordActionsOf (withAccounts cfg da sa ta) = discordActionsOf cfg := by
  cases hcd : cfg.discord <;>
    simp [withAccounts, discordActionsOf, hcd]

theorem telegramEnabled_perm (cfg : ClawdbotConfig) (da : List DiscordAccount)
    (sa : List SlackAccount) (ta : List TelegramAccount)
    (ht : List.Perm ta (accountsOfTelegram cfg)) :
    telegramEnabled (withAccounts cfg da sa ta) = telegramEnabled cfg := by
  cases hct : cfg.telegram with
  | none =>
      have hnil : ta = [] := List.perm_nil.mp (by simpa [accountsOfTelegram, hct] using ht)
      simp [withAccounts, telegramEnabled, telegramAccounts, listEnabledTelegramAccounts,
        hct, hnil]
  | some t =>
      simp only [accountsOfTelegram, hct] at ht
      have h2 := (ht.filter (fun a => a.enabled)).filter (fun a => a.tokenSource != "none")
      simp only [withAccounts, telegramEnabled, telegramAccounts, listEnabledTelegramAccounts,
        hct, Option.map_some']
      rw [perm_isEmpty h2]

theorem telegramGate_withAccounts (cfg : ClawdbotConfig) (da : List DiscordAccount)
    (sa : List SlackAccount) (ta : List TelegramAccount) (key : String) (dflt : Bool) :
    telegramGate (withAccounts cfg da sa ta) key dflt = telegramGate cfg key dflt := by
  cases hct : cfg.telegram <;>
    simp [withAccounts, telegramGate, hct]

theorem isSlackActionEnabled_perm (cfg : ClawdbotConfig) (da : List DiscordAccount)
    (sa : List SlackAccount) (ta : List TelegramAccount)
    (hs : List.Perm sa (accountsOfSlack cfg)) (key : String) (dflt : Bool) :
    isSlackActionEnabled (withAccounts cfg da sa ta) key dflt =
      isSlackActionEnabled cfg key dflt := by
  cases hcs : cfg.slack with
  | none =>
      have hnil : sa = [] := List.perm_nil.mp (by simpa [accountsOfSlack, hcs] using hs)
      simp [withAccounts, isSlackActionEnabled, slackEnabled, slackAccounts,
        listEnabledSlackAccounts, hcs, hnil]
  | some s =>
      simp only [accountsOfSlack, hcs] at hs
      have h2 := (hs.filter (fun a => a.enabled)).filter
        (fun a => a.botTokenSource != "none")
      simp only [withAccounts, isSlackActionEnabled, slackEnabled, slackAccounts,
        listEnabledSlackAccounts, slackAccountGateMap, hcs, Option.map_some']
      rw [perm_isEmpty h2, perm_any h2]

/-- C8: permuting each provider's account list leaves the catalog
unchanged — the per-capability reduction over accounts is an
order-insensitive OR. -/
theorem claim8_catalog_order_independent (cfg : ClawdbotConfig) (da : List DiscordAccount)
    (sa : List SlackAccount) (ta : List TelegramAccount)
    (hd : List.Perm da (accountsOfDiscord cfg)) (hs : List.Perm sa (accountsOfSlack cfg))
    (ht : List.Perm ta (accountsOfTelegram cfg)) :
    buildMessageActionList (withAccounts cfg da sa ta) = buildMessageActionList cfg := by
  have e1 := discordEnabled_perm cfg da sa ta hd
  have e2 : ∀ key dflt, discordGate (withAccounts cfg da sa ta) key dflt =
      discordGate cfg key dflt := by
    intro key dflt
    simp [discordGate, discordActionsOf_withAccounts cfg da sa ta]
  have e4 := isSlackActionEnabled_perm cfg da sa ta hs
  have e5 := telegramEnabled_perm cfg da sa ta ht
  have e6 : (withAccounts cfg da sa ta).whatsapp = cfg.whatsapp := rfl
  have e7 : (withAccounts cfg da sa ta).msteams = cfg.msteams := rfl
  have e8 := telegramGate_withAccounts cfg da sa ta
  simp only [buildMessageActionList, canAnyReactions, canDiscordReactions, canSlackReactions,
    canTelegramReactions, canWhatsAppReactions, canDiscordMessages, canSlackMessages,
    canDiscordPins, canSlackPins, canDiscordPolls, canWhatsAppPolls, canDiscordRoles,
    whatsappGate, msteamsEnabled, e1, e2, e4, e5, e6, e7, e8]

theorem claim8_witness :
    buildMessageActionList (withAccounts discordCfg [DiscordAccount.mk true "env"] [] []) =
      buildMessageActionList discordCfg :=
  claim8_catalog_order_independent discordCfg [DiscordAccount.mk true "env"] [] []
    (by decide) (by decide) (by decide)
